import Mathlib

/-!
Shallow embedding of `src/05-objects-tasks.js`: the `Rectangle` factory, the
JSON helpers `getJSON` / `fromJSON`, and the CSS selector builder
(`CreateElement` with the `cssSelectorBuilder` facade).

JavaScript conventions modelled here:
* every fragment field of `CreateElement` is a string, and JS truthiness of a
  string (`if (this.tags) ...`) is `truthy`, i.e. non-emptiness;
* a method that can `throw` is modelled as returning
  `Option String × CreateElement`: the first component is `some msg` when the
  call throws `Error(msg)` (and the second component is the state of the
  receiver at the moment of the throw), `none` on success;
* exception propagation along a method chain is `chain`.
-/

/-- JS truthiness of a string: non-empty strings are truthy. -/
def truthy (s : String) : Bool := decide (s ≠ "")

/-- The state of a `CreateElement` instance: the seven string fields set up by
the constructor, each initially `''`. -/
structure CreateElement where
  tags : String
  ids : String
  classes : String
  attrs : String
  pseudoClasses : String
  pseudoElements : String
  combines : String
deriving Repr, DecidableEq

/-- `new CreateElement()`: all fields are the empty string. -/
def CreateElement.new : CreateElement :=
  { tags := "", ids := "", classes := "", attrs := "", pseudoClasses := "",
    pseudoElements := "", combines := "" }

/-- The message of the duplicate error thrown by `element`, `id`,
`pseudoElement`. -/
def dupMsg : String :=
  "Element, id and pseudo-element should not occur more then one time inside the selector"

/-- The message of the ordering error thrown by `element`, `id`, `class`,
`attr`, `pseudoClass`. -/
def orderMsg : String :=
  "Selector parts should be arranged in the following order: element, id, class, attribute, pseudo-class, pseudo-element"

/-- `CreateElement.prototype.checkFollowing(selector)`: switches on the
selector-kind name and reports `false` when a later-kind field is truthy. -/
def CreateElement.checkFollowing (self : CreateElement) (selector : String) : Bool :=
  match selector with
  | "element" =>
      !(truthy self.ids || truthy self.classes || truthy self.attrs ||
        truthy self.pseudoClasses || truthy self.pseudoElements)
  | "id" =>
      !(truthy self.classes || truthy self.attrs || truthy self.pseudoClasses ||
        truthy self.pseudoElements)
  | "class" =>
      !(truthy self.attrs || truthy self.pseudoClasses || truthy self.pseudoElements)
  | "attr" =>
      !(truthy self.pseudoClasses || truthy self.pseudoElements)
  | "pseudoClass" =>
      !(truthy self.pseudoElements)
  | _ => true

/-- `element(value)`: duplicate check on `tags`, then ordering check, then
`this.tags = value`. -/
def CreateElement.element (self : CreateElement) (value : String) :
    Option String × CreateElement :=
  if truthy self.tags then (some dupMsg, self)
  else if !(self.checkFollowing "element") then (some orderMsg, self)
  else (none, { self with tags := value })

/-- `id(value)`: duplicate check on `ids`, then ordering check, then
`this.ids = '#' + value`. -/
def CreateElement.id (self : CreateElement) (value : String) :
    Option String × CreateElement :=
  if truthy self.ids then (some dupMsg, self)
  else if !(self.checkFollowing "id") then (some orderMsg, self)
  else (none, { self with ids := "#" ++ value })

/-- `class(value)`: ordering check, then `this.classes += '.' + value`. -/
def CreateElement.«class» (self : CreateElement) (value : String) :
    Option String × CreateElement :=
  if !(self.checkFollowing "class") then (some orderMsg, self)
  else (none, { self with classes := self.classes ++ "." ++ value })

/-- `attr(value)`: ordering check, then `this.attrs = '[' + value + ']'`
(overwriting any previous attribute fragment). -/
def CreateElement.attr (self : CreateElement) (value : String) :
    Option String × CreateElement :=
  if !(self.checkFollowing "attr") then (some orderMsg, self)
  else (none, { self with attrs := "[" ++ value ++ "]" })

/-- `pseudoClass(value)`: ordering check, then
`this.pseudoClasses += ':' + value`. -/
def CreateElement.pseudoClass (self : CreateElement) (value : String) :
    Option String × CreateElement :=
  if !(self.checkFollowing "pseudoClass") then (some orderMsg, self)
  else (none, { self with pseudoClasses := self.pseudoClasses ++ ":" ++ value })

/-- `pseudoElement(value)`: duplicate check on `pseudoElements`, then
`this.pseudoElements = '::' + value` (no ordering check in the source). -/
def CreateElement.pseudoElement (self : CreateElement) (value : String) :
    Option String × CreateElement :=
  if truthy self.pseudoElements then (some dupMsg, self)
  else (none, { self with pseudoElements := "::" ++ value })

/-- `stringify()`: the combined expression when truthy, otherwise the
concatenation of the six fragment fields in canonical order. -/
def CreateElement.stringify (self : CreateElement) : String :=
  if truthy self.combines then self.combines
  else
    self.tags ++ self.ids ++ self.classes ++ self.attrs ++
      self.pseudoClasses ++ self.pseudoElements

/-- `combine(selector1, combinator, selector2)`: sets
`this.combines = selector1.stringify() + ' ' + combinator + ' ' + selector2.stringify()`;
it never throws. -/
def CreateElement.combine (self : CreateElement) (selector1 : CreateElement)
    (combinator : String) (selector2 : CreateElement) :
    Option String × CreateElement :=
  (none,
    { self with
      combines :=
        selector1.stringify ++ " " ++ combinator ++ " " ++ selector2.stringify })

/-- Facade `cssSelectorBuilder.element`: `new CreateElement().element(value)`. -/
def cssSelectorBuilder.element (value : String) : Option String × CreateElement :=
  CreateElement.new.element value

/-- Facade `cssSelectorBuilder.id`. -/
def cssSelectorBuilder.id (value : String) : Option String × CreateElement :=
  CreateElement.new.id value

/-- Facade `cssSelectorBuilder.class`. -/
def cssSelectorBuilder.«class» (value : String) : Option String × CreateElement :=
  CreateElement.new.«class» value

/-- Facade `cssSelectorBuilder.attr`. -/
def cssSelectorBuilder.attr (value : String) : Option String × CreateElement :=
  CreateElement.new.attr value

/-- Facade `cssSelectorBuilder.pseudoClass`. -/
def cssSelectorBuilder.pseudoClass (value : String) : Option String × CreateElement :=
  CreateElement.new.pseudoClass value

/-- Facade `cssSelectorBuilder.pseudoElement`. -/
def cssSelectorBuilder.pseudoElement (value : String) : Option String × CreateElement :=
  CreateElement.new.pseudoElement value

/-- Facade `cssSelectorBuilder.combine`:
`new CreateElement().combine(selector1, combinator, selector2)`. -/
def cssSelectorBuilder.combine (selector1 : CreateElement) (combinator : String)
    (selector2 : CreateElement) : Option String × CreateElement :=
  CreateElement.new.combine selector1 combinator selector2

/-- Sequencing of builder calls: a thrown error propagates, a successful call
passes the mutated instance to the next call of the chain. -/
def chain (r : Option String × CreateElement)
    (f : CreateElement → Option String × CreateElement) :
    Option String × CreateElement :=
  match r with
  | (some e, s) => (some e, s)
  | (none, s) => f s

/-- A sequence of `class(v)` calls, one per list element, with JS exception
propagation. -/
def classChain : CreateElement → List String → Option String × CreateElement
  | s, [] => (none, s)
  | s, v :: vs => chain (s.«class» v) (fun s1 => classChain s1 vs)

/-- A sequence of `pseudoClass(v)` calls, one per list element, with JS
exception propagation. -/
def pseudoClassChain : CreateElement → List String → Option String × CreateElement
  | s, [] => (none, s)
  | s, v :: vs => chain (s.pseudoClass v) (fun s1 => pseudoClassChain s1 vs)

/-- Concatenation of fragments, each preceded by the punctuation `p`. -/
def fragJoin (p : String) : List String → String
  | [] => ""
  | x :: xs => p ++ x ++ fragJoin p xs

/-- The element fragment contributed by an optional `element(x)` call. -/
def tagFrag : Option String → String
  | none => ""
  | some x => x

/-- The id fragment contributed by an optional `id(x)` call. -/
def idFrag : Option String → String
  | none => ""
  | some x => "#" ++ x

/-- The attribute fragment contributed by an optional `attr(x)` call. -/
def attrFrag : Option String → String
  | none => ""
  | some x => "[" ++ x ++ "]"

/-- The pseudo-element fragment contributed by an optional
`pseudoElement(x)` call. -/
def pseudoElementFrag : Option String → String
  | none => ""
  | some x => "::" ++ x

/-- Apply a builder method to `s` when the optional value is present,
otherwise leave `s` untouched. -/
def applyOpt (f : CreateElement → String → Option String × CreateElement)
    (v : Option String) (s : CreateElement) : Option String × CreateElement :=
  match v with
  | none => (none, s)
  | some x => f s x

/-- A full builder chain in the canonical order
element, id, class*, attr, pseudoClass*, pseudoElement, starting from a fresh
instance; optional kinds are skipped when absent. -/
def buildCanonical (t i : Option String) (cs : List String) (a : Option String)
    (ps : List String) (pe : Option String) : Option String × CreateElement :=
  chain
    (chain
      (chain
        (chain
          (chain (applyOpt CreateElement.element t CreateElement.new)
            (applyOpt CreateElement.id i))
          (fun s => classChain s cs))
        (applyOpt CreateElement.attr a))
      (fun s => pseudoClassChain s ps))
    (applyOpt CreateElement.pseudoElement pe)

/-- The worked example from the spec:
`element('a').attr('href$=".png"').pseudoClass('focus')`. -/
def exampleSelector : Option String × CreateElement :=
  chain (chain (cssSelectorBuilder.element "a") (fun s => s.attr "href$=\".png\""))
    (fun s => s.pseudoClass "focus")

/-- A state with every fragment field non-empty: every fragment method throws
on it. -/
def sAll : CreateElement :=
  { tags := "q", ids := "#m", classes := ".c", attrs := "[x=y]",
    pseudoClasses := ":h", pseudoElements := "::after", combines := "" }

/-- A reachable combined instance on which `attr` was then called:
`combine(element('a'), '+', element('b')).attr('t')`. -/
def comboState : CreateElement :=
  ((cssSelectorBuilder.combine (cssSelectorBuilder.element "a").2 "+"
      (cssSelectorBuilder.element "b").2).2.attr "t").2

/-- The instance returned by the facade `combine` call. -/
def combined (a : CreateElement) (c : String) (b : CreateElement) : CreateElement :=
  (cssSelectorBuilder.combine a c b).2

/-- The object shape returned by the `Rectangle` factory: two data fields and
a `getArea` closure. JS numbers are modelled as integers. -/
structure RectObj where
  width : Int
  height : Int
  getArea : Unit → Int

/-- `Rectangle(width, height)`: returns `{ width, height, getArea() { return
width * height } }` — the method closes over the constructor arguments, not
over the object's fields. -/
def Rectangle (width height : Int) : RectObj :=
  { width := width, height := height, getArea := fun _ => width * height }

/-- JSON-representable plain data: the values the ambient JSON format can
carry (numbers modelled as integers). -/
inductive Json where
  | null : Json
  | bool : Bool → Json
  | num : Int → Json
  | str : String → Json
  | arr : List Json → Json
  | obj : List (String × Json) → Json

/-- Modelled from the spec: the ambient JSON text format (`JSON.stringify` /
`JSON.parse` of the host platform, which src/ only wraps). The spec states
the serialization format is the ambient JSON standard and introduces no
custom wire format, and that the ambient encoding is lossless for
JSON-representable plain data; JSON text is therefore modelled by the JSON
value it denotes. -/
def JsonText : Type := Json

/-- `getJSON(obj)`: `JSON.stringify(obj)`. Modelled from the spec: the
ambient lossless encoding into JSON text. -/
def getJSON (obj : Json) : JsonText := obj

/-- Modelled from the spec: ambient `JSON.parse`, the inverse of the ambient
encoding on JSON-representable data. -/
def jsonParse (json : JsonText) : Json := json

/-- `Object.keys` on a parsed JSON value: the own enumerable keys, in
insertion order for an object, nothing for a non-object. -/
def objectKeys : Json → List String
  | Json.obj fs => fs.map Prod.fst
  | _ => []

/-- First-match association lookup, the semantics of reading a property of an
object whose keys are distinct. -/
def assocGet : List (String × Json) → String → Option Json
  | [], _ => none
  | (k, v) :: rest, key => if k == key then some v else assocGet rest key

/-- Property read `obj[key]` on a parsed JSON value. -/
def jsonGet : Json → String → Option Json
  | Json.obj fs, key => assocGet fs key
  | _, _ => none

/-- Property assignment `result[key] = v`: overwrite the existing entry for
`key` if present, otherwise append a new own field. -/
def setField : List (String × Json) → String → Json → List (String × Json)
  | [], k, v => [(k, v)]
  | (k1, v1) :: rest, k, v =>
      if k1 == k then (k1, v) :: rest else (k1, v1) :: setField rest k v

/-- A JS object as produced by `fromJSON`: an attached prototype (capability
set) and the own enumerable fields in insertion order. -/
structure JsObject (α : Type u) where
  proto : α
  fields : List (String × Json)

/-- `fromJSON(proto, json)`: parse the text, create an empty result, attach
`proto` via `Object.setPrototypeOf`, then copy every key of the parsed value
onto the result with `Object.keys(obj).forEach(key => result[key] = obj[key])`. -/
def fromJSON {α : Type u} (proto : α) (json : JsonText) : JsObject α :=
  let obj := jsonParse json
  let keys := objectKeys obj
  { proto := proto,
    fields :=
      keys.foldl (fun acc key => setField acc key ((jsonGet obj key).getD Json.null)) [] }

/-! ### Helper lemmas -/

@[simp] theorem truthy_eq_true {s : String} : truthy s = true ↔ s ≠ "" := by
  simp [truthy]

@[simp] theorem truthy_eq_false {s : String} : truthy s = false ↔ s = "" := by
  simp [truthy]

theorem dupMsg_ne_orderMsg : dupMsg ≠ orderMsg := by decide

theorem orderMsg_ne_dupMsg : orderMsg ≠ dupMsg := fun h => dupMsg_ne_orderMsg h.symm

theorem length_space : (" " : String).length = 1 := rfl

theorem append_spaced_ne_empty (x c y : String) :
    x ++ " " ++ c ++ " " ++ y ≠ "" := by
  intro h
  have h1 := congrArg String.length h
  simp [String.length_append, length_space] at h1

theorem classChain_spec (l : List String) :
    ∀ s : CreateElement, s.attrs = "" → s.pseudoClasses = "" →
      s.pseudoElements = "" →
      classChain s l = (none, { s with classes := s.classes ++ fragJoin "." l }) := by
  induction l with
  | nil =>
    intro s _ _ _
    simp [classChain, fragJoin]
  | cons v vs ih =>
    intro s h1 h2 h3
    have hc : s.«class» v = (none, { s with classes := s.classes ++ "." ++ v }) := by
      simp [CreateElement.«class», CreateElement.checkFollowing, h1, h2, h3]
    have hrec := ih { s with classes := s.classes ++ "." ++ v } h1 h2 h3
    simp only [classChain, hc, chain, hrec, fragJoin]
    simp [String.append_assoc]

theorem pseudoClassChain_spec (l : List String) :
    ∀ s : CreateElement, s.pseudoElements = "" →
      pseudoClassChain s l =
        (none, { s with pseudoClasses := s.pseudoClasses ++ fragJoin ":" l }) := by
  induction l with
  | nil =>
    intro s _
    simp [pseudoClassChain, fragJoin]
  | cons v vs ih =>
    intro s h3
    have hc : s.pseudoClass v =
        (none, { s with pseudoClasses := s.pseudoClasses ++ ":" ++ v }) := by
      simp [CreateElement.pseudoClass, CreateElement.checkFollowing, h3]
    have hrec := ih { s with pseudoClasses := s.pseudoClasses ++ ":" ++ v } h3
    simp only [pseudoClassChain, hc, chain, hrec, fragJoin]
    simp [String.append_assoc]

theorem buildCanonical_spec (t i : Option String) (cs : List String)
    (a : Option String) (ps : List String) (pe : Option String) :
    buildCanonical t i cs a ps pe =
      (none,
        { tags := tagFrag t, ids := idFrag i, classes := fragJoin "." cs,
          attrs := attrFrag a, pseudoClasses := fragJoin ":" ps,
          pseudoElements := pseudoElementFrag pe, combines := "" }) := by
  cases t <;> cases i <;> cases a <;> cases pe <;>
    simp [buildCanonical, applyOpt, chain, CreateElement.element, CreateElement.id,
      CreateElement.attr, CreateElement.pseudoElement, CreateElement.checkFollowing,
      CreateElement.new, classChain_spec, pseudoClassChain_spec, tagFrag, idFrag,
      attrFrag, pseudoElementFrag]

/-! ### Claim theorems -/

/-- Claim C1: when `combines` is unset, `stringify()` returns the
concatenation of the fragment fields in the fixed canonical order; a chain of
calls in canonical order stores exactly the fragments with their punctuation
(`#`, `.`, `[...]`, `:`, `::`), so the rendered string is their concatenation;
in particular `element('a').attr('href$=".png"').pseudoClass('focus')`
stringifies to `a[href$=".png"]:focus`. -/
theorem C1_stringify_canonical_concat (s : CreateElement)
    (t i a pe : Option String) (cs ps : List String) (h : s.combines = "") :
    s.stringify = s.tags ++ s.ids ++ s.classes ++ s.attrs ++
        s.pseudoClasses ++ s.pseudoElements
    ∧ (buildCanonical t i cs a ps pe).1 = none
    ∧ (buildCanonical t i cs a ps pe).2.stringify =
        tagFrag t ++ idFrag i ++ fragJoin "." cs ++ attrFrag a ++
          fragJoin ":" ps ++ pseudoElementFrag pe
    ∧ exampleSelector.1 = none
    ∧ exampleSelector.2.stringify = "a[href$=\".png\"]:focus" := by
  refine ⟨?_, ?_, ?_, by decide, by decide⟩
  · simp [CreateElement.stringify, h]
  · simp [buildCanonical_spec]
  · simp [buildCanonical_spec, CreateElement.stringify]

/-- Claim C1 witness: the theorem applied at the fresh instance. -/
theorem C1_witness :
    CreateElement.new.combines = "" ∧
      (CreateElement.new.stringify =
          CreateElement.new.tags ++ CreateElement.new.ids ++
            CreateElement.new.classes ++ CreateElement.new.attrs ++
            CreateElement.new.pseudoClasses ++ CreateElement.new.pseudoElements
        ∧ (buildCanonical (some "a") none [] none [] none).1 = none
        ∧ (buildCanonical (some "a") none [] none [] none).2.stringify =
            tagFrag (some "a") ++ idFrag none ++ fragJoin "." [] ++
              attrFrag none ++ fragJoin ":" [] ++ pseudoElementFrag none
        ∧ exampleSelector.1 = none
        ∧ exampleSelector.2.stringify = "a[href$=\".png\"]:focus") :=
  ⟨rfl, C1_stringify_canonical_concat CreateElement.new (some "a") none none none [] [] rfl⟩

/-- Claim C2: `combine(a, c, b)` returns a new Selector that stringifies to
`a.stringify() + ' ' + c + ' ' + b.stringify()`, for any two already-built
selectors (including prior combinations) and any combinator string. -/
theorem C2_combine_renders_nested (a : CreateElement) (c : String)
    (b : CreateElement) :
    (cssSelectorBuilder.combine a c b).1 = none ∧
      (cssSelectorBuilder.combine a c b).2.stringify =
        a.stringify ++ " " ++ c ++ " " ++ b.stringify := by
  refine ⟨rfl, ?_⟩
  simp [cssSelectorBuilder.combine, CreateElement.combine,
    CreateElement.stringify, CreateElement.new]
  exact fun h => h.symm

/-- Claim C3: a fragment-kind method among `element`, `id`, `class`, `attr`,
`pseudoClass` throws the ordering error exactly when some fragment of a kind
strictly after it in the canonical order is already non-empty (and, for
`element` and `id`, the separate duplicate check did not fire first); skipping
kinds forward never throws it. -/
theorem C3_order_violation_iff_later_fragment (s : CreateElement) (v : String) :
    ((s.element v).1 = some orderMsg ↔
      s.tags = "" ∧ (s.ids ≠ "" ∨ s.classes ≠ "" ∨ s.attrs ≠ "" ∨
        s.pseudoClasses ≠ "" ∨ s.pseudoElements ≠ ""))
    ∧ ((s.id v).1 = some orderMsg ↔
      s.ids = "" ∧ (s.classes ≠ "" ∨ s.attrs ≠ "" ∨ s.pseudoClasses ≠ "" ∨
        s.pseudoElements ≠ ""))
    ∧ ((s.«class» v).1 = some orderMsg ↔
      s.attrs ≠ "" ∨ s.pseudoClasses ≠ "" ∨ s.pseudoElements ≠ "")
    ∧ ((s.attr v).1 = some orderMsg ↔
      s.pseudoClasses ≠ "" ∨ s.pseudoElements ≠ "")
    ∧ ((s.pseudoClass v).1 = some orderMsg ↔ s.pseudoElements ≠ "") := by
  refine ⟨?_, ?_, ?_, ?_, ?_⟩ <;>
  · simp only [CreateElement.element, CreateElement.id, CreateElement.«class»,
      CreateElement.attr, CreateElement.pseudoClass, CreateElement.checkFollowing]
    by_cases h1 : s.tags = "" <;> by_cases h2 : s.ids = "" <;>
      by_cases h3 : s.classes = "" <;> by_cases h4 : s.attrs = "" <;>
      by_cases h5 : s.pseudoClasses = "" <;> by_cases h6 : s.pseudoElements = "" <;>
      simp_all [dupMsg_ne_orderMsg]

/-- Claim C4: a second `element`, `id` or `pseudoElement` call on an instance
whose corresponding fragment is non-empty throws the duplicate error (and
only then), while any number of `class` and `pseudoClass` calls succeed and
accumulate their fragments in call order. -/
theorem C4_duplicates_rejected_accumulators_append (s t : CreateElement)
    (v : String) (l m : List String) (h1 : t.attrs = "")
    (h2 : t.pseudoClasses = "") (h3 : t.pseudoElements = "") :
    ((s.element v).1 = some dupMsg ↔ s.tags ≠ "")
    ∧ ((s.id v).1 = some dupMsg ↔ s.ids ≠ "")
    ∧ ((s.pseudoElement v).1 = some dupMsg ↔ s.pseudoElements ≠ "")
    ∧ (classChain t l).1 = none
    ∧ (classChain t l).2.classes = t.classes ++ fragJoin "." l
    ∧ (pseudoClassChain t m).1 = none
    ∧ (pseudoClassChain t m).2.pseudoClasses = t.pseudoClasses ++ fragJoin ":" m := by
  refine ⟨?_, ?_, ?_, ?_, ?_, ?_, ?_⟩
  · simp only [CreateElement.element, CreateElement.checkFollowing]
    by_cases h : s.tags = "" <;> split_ifs <;>
      simp_all [dupMsg_ne_orderMsg, orderMsg_ne_dupMsg]
  · simp only [CreateElement.id, CreateElement.checkFollowing]
    by_cases h : s.ids = "" <;> split_ifs <;>
      simp_all [dupMsg_ne_orderMsg, orderMsg_ne_dupMsg]
  · simp only [CreateElement.pseudoElement]
    by_cases h : s.pseudoElements = "" <;> split_ifs <;> simp_all
  · simp [classChain_spec l t h1 h2 h3]
  · simp [classChain_spec l t h1 h2 h3]
  · simp [pseudoClassChain_spec m t h3]
  · simp [pseudoClassChain_spec m t h3]

/-- Claim C4 witness: the theorem applied at a fully populated state for the
duplicate checks and at a fresh state for the accumulating chains. -/
theorem C4_witness :
    ((sAll.element "z").1 = some dupMsg ↔ sAll.tags ≠ "")
    ∧ ((sAll.id "z").1 = some dupMsg ↔ sAll.ids ≠ "")
    ∧ ((sAll.pseudoElement "z").1 = some dupMsg ↔ sAll.pseudoElements ≠ "")
    ∧ (classChain CreateElement.new ["x", "y"]).1 = none
    ∧ (classChain CreateElement.new ["x", "y"]).2.classes =
        CreateElement.new.classes ++ fragJoin "." ["x", "y"]
    ∧ (pseudoClassChain CreateElement.new ["w"]).1 = none
    ∧ (pseudoClassChain CreateElement.new ["w"]).2.pseudoClasses =
        CreateElement.new.pseudoClasses ++ fragJoin ":" ["w"] :=
  C4_duplicates_rejected_accumulators_append sAll CreateElement.new "z"
    ["x", "y"] ["w"] rfl rfl rfl

/-- Claim C5: a builder call that throws leaves every field of the receiver
unchanged — the failed call is an atomic no-op on the instance. -/
theorem C5_failed_call_is_noop (s : CreateElement) (v : String) :
    ((s.element v).1.isSome → (s.element v).2 = s)
    ∧ ((s.id v).1.isSome → (s.id v).2 = s)
    ∧ ((s.«class» v).1.isSome → (s.«class» v).2 = s)
    ∧ ((s.attr v).1.isSome → (s.attr v).2 = s)
    ∧ ((s.pseudoClass v).1.isSome → (s.pseudoClass v).2 = s)
    ∧ ((s.pseudoElement v).1.isSome → (s.pseudoElement v).2 = s) := by
  refine ⟨?_, ?_, ?_, ?_, ?_, ?_⟩ <;>
  · simp only [CreateElement.element, CreateElement.id, CreateElement.«class»,
      CreateElement.attr, CreateElement.pseudoClass, CreateElement.pseudoElement]
    split_ifs <;> simp

/-- Claim C5 witness: on a fully populated state every method throws, and each
failed call returns the state unchanged. -/
theorem C5_witness :
    (sAll.element "z").2 = sAll ∧ (sAll.id "z").2 = sAll
    ∧ (sAll.«class» "z").2 = sAll ∧ (sAll.attr "z").2 = sAll
    ∧ (sAll.pseudoClass "z").2 = sAll ∧ (sAll.pseudoElement "z").2 = sAll := by
  refine ⟨(C5_failed_call_is_noop sAll "z").1 (by decide),
    (C5_failed_call_is_noop sAll "z").2.1 (by decide),
    (C5_failed_call_is_noop sAll "z").2.2.1 (by decide),
    (C5_failed_call_is_noop sAll "z").2.2.2.1 (by decide),
    (C5_failed_call_is_noop sAll "z").2.2.2.2.1 (by decide),
    (C5_failed_call_is_noop sAll "z").2.2.2.2.2 (by decide)⟩

/-- Claim C6: when `attr` may legally be called (no pseudo-class and no
pseudo-element fragment on the instance), a second `attr` call does not throw
and overwrites the attribute slot: `s.attr(x).attr(y)` is the same state as
`s.attr(y)`, whose attribute fragment is `[y]`. -/
theorem C6_attr_overwrites (s : CreateElement) (x y : String)
    (h1 : s.pseudoClasses = "") (h2 : s.pseudoElements = "") :
    (s.attr x).1 = none
    ∧ ((s.attr x).2.attr y).1 = none
    ∧ ((s.attr x).2.attr y).2 = (s.attr y).2
    ∧ ((s.attr x).2.attr y).2.attrs = "[" ++ y ++ "]" := by
  simp [CreateElement.attr, CreateElement.checkFollowing, h1, h2]

/-- Claim C6 witness: the theorem applied at the fresh instance. -/
theorem C6_witness :
    (CreateElement.new.attr "a").1 = none
    ∧ ((CreateElement.new.attr "a").2.attr "b").1 = none
    ∧ ((CreateElement.new.attr "a").2.attr "b").2 = (CreateElement.new.attr "b").2
    ∧ ((CreateElement.new.attr "a").2.attr "b").2.attrs = "[" ++ "b" ++ "]" :=
  C6_attr_overwrites CreateElement.new "a" "b" rfl rfl

/-! ### Association-list lemmas for the JSON round trip -/

theorem assocGet_append_of_not_mem (l1 l2 : List (String × Json)) (k : String)
    (h : k ∉ l1.map Prod.fst) : assocGet (l1 ++ l2) k = assocGet l2 k := by
  induction l1 with
  | nil => rfl
  | cons p l1 ih =>
    obtain ⟨k1, v1⟩ := p
    simp only [List.map_cons, List.mem_cons, not_or] at h
    simp only [List.cons_append, assocGet]
    rw [if_neg (by simp [Ne.symm h.1])]
    exact ih h.2

theorem setField_of_not_mem (l : List (String × Json)) (k : String) (v : Json)
    (h : k ∉ l.map Prod.fst) : setField l k v = l ++ [(k, v)] := by
  induction l with
  | nil => rfl
  | cons p l ih =>
    obtain ⟨k1, v1⟩ := p
    simp only [List.map_cons, List.mem_cons, not_or] at h
    simp only [setField, List.cons_append]
    rw [if_neg (by simp [Ne.symm h.1]), ih h.2]

theorem foldl_setField_copy (fs : List (String × Json)) :
    ∀ fs2 fs1 : List (String × Json), fs = fs1 ++ fs2 →
      (fs.map Prod.fst).Nodup →
      (fs2.map Prod.fst).foldl
        (fun acc key => setField acc key ((assocGet fs key).getD Json.null)) fs1 = fs := by
  intro fs2
  induction fs2 with
  | nil =>
    intro fs1 heq _
    simpa using heq.symm
  | cons p rest ih =>
    intro fs1 heq hnd
    obtain ⟨k, v⟩ := p
    have hksplit : fs.map Prod.fst = fs1.map Prod.fst ++ k :: rest.map Prod.fst := by
      simp [heq]
    have hk1 : k ∉ fs1.map Prod.fst := by
      rw [hksplit] at hnd
      have := List.disjoint_of_nodup_append hnd
      intro hmem
      exact this hmem (by simp)
    have hget : assocGet fs k = some v := by
      rw [heq, assocGet_append_of_not_mem fs1 _ k hk1]
      simp [assocGet]
    simp only [List.map_cons, List.foldl_cons, hget, Option.getD_some]
    rw [setField_of_not_mem fs1 k v hk1]
    exact ih (fs1 ++ [(k, v)]) (by simp [heq]) hnd

theorem fromJSON_obj_spec {α : Type u} (proto : α) (fs : List (String × Json))
    (h : (fs.map Prod.fst).Nodup) :
    fromJSON proto (getJSON (Json.obj fs)) = { proto := proto, fields := fs } := by
  simp only [fromJSON, getJSON, jsonParse, objectKeys, jsonGet]
  rw [foldl_setField_copy fs fs [] rfl h]

/-- Claim C7: for plain JSON-representable data `v` (an object with distinct
keys), `fromJSON(proto, getJSON(v))` yields an object whose own enumerable
fields equal the fields of `v` and whose prototype is `proto`. -/
theorem C7_json_round_trip {α : Type u} (proto : α) (fs : List (String × Json))
    (h : (fs.map Prod.fst).Nodup) :
    (fromJSON proto (getJSON (Json.obj fs))).proto = proto
    ∧ (fromJSON proto (getJSON (Json.obj fs))).fields = fs := by
  rw [fromJSON_obj_spec proto fs h]
  exact ⟨rfl, rfl⟩

/-- Claim C7 witness: the round trip at a concrete two-field object and the
prototype `42`. -/
theorem C7_witness :
    (fromJSON (42 : Nat) (getJSON (Json.obj [("a", Json.num 1), ("b", Json.str "x")]))).proto = 42
    ∧ (fromJSON (42 : Nat) (getJSON (Json.obj [("a", Json.num 1), ("b", Json.str "x")]))).fields =
        [("a", Json.num 1), ("b", Json.str "x")] :=
  C7_json_round_trip (42 : Nat) [("a", Json.num 1), ("b", Json.str "x")] (by decide)

/-- Claim C8: `element('')` on a fresh instance succeeds but stores the empty
string, which compares as unset, so a subsequent `element(x)` succeeds without
the duplicate error and produces exactly the state of `element(x)` on a fresh
instance — the earlier empty tag leaves no trace. -/
theorem C8_empty_element_leaves_tag_unset (x : String) :
    (CreateElement.new.element "").1 = none
    ∧ (CreateElement.new.element "").2.tags = ""
    ∧ ((CreateElement.new.element "").2.element x).1 = none
    ∧ ((CreateElement.new.element "").2.element x).2 = (CreateElement.new.element x).2 :=
  ⟨rfl, rfl, rfl, rfl⟩

/-- Claim C9: `Rectangle(w, h)` returns an object with `width = w`,
`height = h`, and a `getArea` closure over the constructor arguments, so
`getArea()` still returns `w * h` after the `width` and `height` fields are
reassigned. -/
theorem C9_rectangle_area_from_constructor_args (w h w2 h2 : Int) :
    (Rectangle w h).width = w
    ∧ (Rectangle w h).height = h
    ∧ (Rectangle w h).getArea () = w * h
    ∧ ({ Rectangle w h with width := w2, height := h2 } : RectObj).width = w2
    ∧ ({ Rectangle w h with width := w2, height := h2 } : RectObj).height = h2
    ∧ ({ Rectangle w h with width := w2, height := h2 } : RectObj).getArea () = w * h :=
  ⟨rfl, rfl, rfl, rfl, rfl, rfl⟩

/-- Claim C10 as stated is false: a combined instance can have later-kind
fragment fields set (here `combine(element('a'), '+', element('b')).attr('t')`),
and on such an instance `class` throws the ordering error instead of
succeeding. -/
theorem C10_counterexample :
    comboState.combines ≠ "" ∧ (comboState.«class» "c").1 = some orderMsg := by
  decide

/-- Claim C10 (amended): on every instance whose `combines` is set, an
invocation of `class` or `pseudoClass` whose fragment fields pass the ordering
rule for that method does not throw and mutates the fragment fields, yet
`stringify()` keeps returning the combined string verbatim, unchanged by those
mutations. -/
theorem C10_combined_stringify_ignores_fragments (s : CreateElement)
    (v w : String) (hcomb : s.combines ≠ "") :
    (s.attrs = "" → s.pseudoClasses = "" → s.pseudoElements = "" →
      (s.«class» v).1 = none
      ∧ (s.«class» v).2.classes = s.classes ++ "." ++ v
      ∧ (s.«class» v).2.stringify = s.combines)
    ∧ (s.pseudoElements = "" →
      (s.pseudoClass w).1 = none
      ∧ (s.pseudoClass w).2.pseudoClasses = s.pseudoClasses ++ ":" ++ w
      ∧ (s.pseudoClass w).2.stringify = s.combines)
    ∧ s.stringify = s.combines := by
  refine ⟨?_, ?_, ?_⟩
  · intro h1 h2 h3
    have hc : s.«class» v = (none, { s with classes := s.classes ++ "." ++ v }) := by
      simp [CreateElement.«class», CreateElement.checkFollowing, h1, h2, h3]
    rw [hc]
    exact ⟨rfl, rfl, by simp [CreateElement.stringify, hcomb]⟩
  · intro h3
    have hc : s.pseudoClass w =
        (none, { s with pseudoClasses := s.pseudoClasses ++ ":" ++ w }) := by
      simp [CreateElement.pseudoClass, CreateElement.checkFollowing, h3]
    rw [hc]
    exact ⟨rfl, rfl, by simp [CreateElement.stringify, hcomb]⟩
  · simp [CreateElement.stringify, hcomb]

/-- Claim C10 witness: the amended theorem applied at a freshly combined
instance for the `class` part and at `comboState` — a combined instance with
`attrs` already set, squarely inside the amended scope for `pseudoClass` —
for the `pseudoClass` part. -/
theorem C10_witness :
    ((combined (cssSelectorBuilder.element "a").2 "+"
        (cssSelectorBuilder.element "b").2).«class» "c").1 = none
    ∧ ((combined (cssSelectorBuilder.element "a").2 "+"
        (cssSelectorBuilder.element "b").2).«class» "c").2.classes =
        (combined (cssSelectorBuilder.element "a").2 "+"
          (cssSelectorBuilder.element "b").2).classes ++ "." ++ "c"
    ∧ ((combined (cssSelectorBuilder.element "a").2 "+"
        (cssSelectorBuilder.element "b").2).«class» "c").2.stringify =
        (combined (cssSelectorBuilder.element "a").2 "+"
          (cssSelectorBuilder.element "b").2).combines
    ∧ (comboState.pseudoClass "hover").1 = none
    ∧ (comboState.pseudoClass "hover").2.pseudoClasses =
        comboState.pseudoClasses ++ ":" ++ "hover"
    ∧ (comboState.pseudoClass "hover").2.stringify = comboState.combines := by
  have h1 := (C10_combined_stringify_ignores_fragments
    (combined (cssSelectorBuilder.element "a").2 "+"
      (cssSelectorBuilder.element "b").2) "c" "hover" (by decide)).1 rfl rfl rfl
  have h2 := (C10_combined_stringify_ignores_fragments comboState "c" "hover"
    (by decide)).2.1 rfl
  exact ⟨h1.1, h1.2.1, h1.2.2, h2.1, h2.2.1, h2.2.2⟩
